import Mathlib

/-!
# Verification of the Book Recommendation System core

Shallow embedding of the catalog / scoring / ranking core of `src/app.py`
(a pandas + Streamlit application).  DataFrames of book rows are modelled as
`List Book` (rows in order); the pandas column operations used by the
recommendation routine are modelled row by row.

Source map:
* `create_books_dataframe` (app.py lines 92-109): normalisation of raw
  Open Library records into `Book` rows.
* `pd.concat([books_df, new_books]).drop_duplicates(subset=[title_column])`
  (app.py lines 429-430 and similar call sites): `mergeBooks`.
* `get_book_recommendations` (app.py lines 390-416): the scoring and
  ranking routine.
-/

/-- A row of the books dataframe.  Missing textual fields are already
normalised to strings by `create_books_dataframe`, so every field is a
plain `String` (and `work_key` is the empty string when absent). -/
structure Book where
  title : String
  authors : String
  categories : String
  description : String
  publishedDate : String
  thumbnail : String
  work_key : String
deriving DecidableEq, Repr

/-- A raw record as returned by the Open Library search endpoint, with the
fields that `create_books_dataframe` reads.  `none` models an absent key in
the JSON object.  `first_sentence`, when present, is modelled as the list of
strings the API documents (the Python code additionally guards with
`isinstance(..., list)`; non-list values never arise in this model). -/
structure RawItem where
  title : Option String
  author_name : Option (List String)
  subject : Option (List String)
  first_sentence : Option (List String)
  first_publish_year : Option Int
  cover_i : Option Nat
  key : Option String
deriving DecidableEq, Repr

/-- Error taxonomy of the spec (section 7), plus `regexError`: pandas
`str.contains` compiles its pattern with `re.compile` (default
`regex=True`), and an invalid pattern - such as a category piece with an
unbalanced parenthesis - raises `re.error` out of
`get_book_recommendations`. -/
inductive Err where
  | notFound
  | dataUnavailable
  | sourceUnavailable
  | regexError
deriving DecidableEq, Repr

/-- Python string slicing `s[:n]`: the first `n` characters. -/
def strTake (s : String) (n : Nat) : String :=
  ⟨s.data.take n⟩

/-- Split a character list at every occurrence of `sep`.  Always yields at
least one (possibly empty) piece, exactly like Python's `str.split(sep)`
with an explicit separator: `"".split(',') == ['']`,
`"a,".split(',') == ['a','']`. -/
def splitSep (sep : Char) : List Char → List (List Char)
  | [] => [[]]
  | c :: cs =>
    if c == sep then [] :: splitSep sep cs
    else match splitSep sep cs with
      | [] => [[c]]
      | piece :: pieces => (c :: piece) :: pieces

/-- Python `s.split(',')` on strings (app.py line 394 splits the categories
cell on commas; empty pieces are kept). -/
def pySplit (s : String) (sep : Char) : List String :=
  (splitSep sep s.data).map (fun cs => ⟨cs⟩)

/-- Python `str.isspace()` on one character: the set of characters that
`str.strip()` removes (ASCII whitespace, the information separators, NEL,
NBSP and the Unicode space separators). -/
def pyIsSpace (c : Char) : Bool :=
  (c.val ≥ 0x9 && c.val ≤ 0xd) || c.val == 0x20 ||
  (c.val ≥ 0x1c && c.val ≤ 0x1f) || c.val == 0x85 || c.val == 0xa0 ||
  c.val == 0x1680 || (c.val ≥ 0x2000 && c.val ≤ 0x200a) ||
  c.val == 0x2028 || c.val == 0x2029 || c.val == 0x202f ||
  c.val == 0x205f || c.val == 0x3000

/-- Drop leading Python-whitespace characters. -/
def dropWs : List Char → List Char
  | [] => []
  | c :: cs => if pyIsSpace c then dropWs cs else c :: cs

/-- Python `str.strip()` (app.py line 402): remove leading and trailing
whitespace. -/
def pyStrip (s : String) : String :=
  ⟨dropWs ((dropWs s.data.reverse).reverse)⟩

/-- The characters the Python `re` module treats specially.  A pattern
containing none of them is matched by `re.search` exactly as a literal
substring. -/
def regexMetachar (c : Char) : Bool :=
  c == '.' || c == '^' || c == '$' || c == '*' || c == '+' || c == '?' ||
  c == '\x7b' || c == '\x7d' || c == '[' || c == ']' || c == '\\' ||
  c == '|' || c == '(' || c == ')'

/-- Is the string free of regex metacharacters?  On such patterns - and
only on such patterns does this development make claims about matching -
`re.search(pat, s)` coincides with literal substring containment, and
`re.compile(pat)` cannot raise. -/
def isLiteralPattern (s : String) : Bool :=
  s.data.all (fun c => !(regexMetachar c))

/-- Is `pat` a prefix of `l` (character lists)? -/
def charPrefix : List Char → List Char → Bool
  | [], _ => true
  | _ :: _, [] => false
  | a :: as, b :: bs => a == b && charPrefix as bs

/-- Does `hay` contain `pat` as a contiguous substring (character lists)? -/
def charSub (pat : List Char) : List Char → Bool
  | [] => pat.isEmpty
  | c :: cs => charPrefix pat (c :: cs) || charSub pat cs

/-- Predicate `strContains hay pat`: does `hay` contain `pat` as a substring?
Models `temp_df[category_column].str.contains(category, na=False)` applied
to one cell (app.py line 403) for patterns with `isLiteralPattern pat`:
pandas compiles the pattern as a regular expression (default `regex=True`),
and on metacharacter-free patterns `re.search` is exactly literal substring
containment.  On other patterns the code has full regex semantics -
up to and including an `re.error` crash on invalid ones - which this
development does not implement: `get_book_recommendations` only reaches
`strContains` behind its `isLiteralPattern` guard, and reports
`Err.regexError` otherwise.  The `na=False` case does not arise because
every `categories` cell is a normalised string. -/
def strContains (hay pat : String) : Bool :=
  charSub pat.data hay.data

/-- One record of `create_books_dataframe` (app.py lines 96-105), with the
Python `dict.get` fallbacks made explicit.  The thumbnail guard is Python
truthiness, so `cover_i = 0` yields no URL.  One deliberate divergence on a
field no claim touches: for `first_sentence = some []` the Python indexing
`[0]` raises `IndexError`, while this model stays total and keeps the
default text (`headD`). -/
def createBook (item : RawItem) : Book :=
  { title := item.title.getD "Unknown Title"
    authors := String.intercalate ", " (item.author_name.getD ["Unknown Author"])
    categories := strTake (String.intercalate ", " (item.subject.getD ["Uncategorized"])) 100
    description := (item.first_sentence.getD ["No description available"]).headD
      "No description available"
    publishedDate := match item.first_publish_year with
      | some y => toString y
      | none => "Unknown"
    thumbnail := match item.cover_i with
      | some i =>
        if i == 0 then ""
        else "https://covers.openlibrary.org/b/id/" ++ toString i ++ "-M.jpg"
      | none => ""
    work_key := if (item.key.getD "").startsWith "/works/" then item.key.getD "" else "" }

/-- Function `create_books_dataframe` (app.py lines 92-109): one `Book` row per raw
item, in input order. -/
def create_books_dataframe (items : List RawItem) : List Book :=
  items.map createBook

/-- Model of `DataFrame.drop_duplicates(subset=['title'])`: keep the first row for
each title, preserving row order.  `seen` accumulates the titles already
kept. -/
def dropDupTitlesAux (seen : List String) : List Book → List Book
  | [] => []
  | b :: bs =>
    if b.title ∈ seen then dropDupTitlesAux seen bs
    else b :: dropDupTitlesAux (b.title :: seen) bs

/-- Model of `drop_duplicates(subset=[title_column])` on a whole dataframe. -/
def dropDupTitles (l : List Book) : List Book :=
  dropDupTitlesAux [] l

/-- Model of `pd.concat([books_df, new_books]).drop_duplicates(subset=[title_column])`
(app.py lines 429-430): append then drop later duplicate titles. -/
def mergeBooks (existing incoming : List Book) : List Book :=
  dropDupTitles (existing ++ incoming)

/-- Model of `temp_df.loc[mask, 'score'] += pts`: add `pts` to the score cell of every
row satisfying `p`, leaving the `Book` part of each row untouched. -/
def addPointsWhere (p : Book → Bool) (pts : Nat) (df : List (Book × Nat)) :
    List (Book × Nat) :=
  df.map (fun r => if p r.1 then (r.1, r.2 + pts) else r)

/-- The scored copy built by `get_book_recommendations` (app.py lines
396-406): `temp_df = books_df.copy(); temp_df['score'] = 0`, then one
`+= 1` pass per comma-separated piece of the reference's categories
(stripped, substring containment) and a final `+= 2` pass for rows with
exactly the reference's author string. -/
def buildScores (books_df : List Book) (book : Book) : List (Book × Nat) :=
  addPointsWhere (fun b => b.authors == book.authors) 2
    ((pySplit book.categories ',').foldl
      (fun df category =>
        addPointsWhere (fun b => strContains b.categories (pyStrip category)) 1 df)
      (books_df.map (fun b => (b, 0))))

/-- The per-pair similarity score: what `buildScores` assigns to the row of
`cand` when the reference is `refBook` (proved as `buildScores_eq`). -/
def score (refBook cand : Book) : Nat :=
  (pySplit refBook.categories ',').foldl
    (fun acc category => if strContains cand.categories (pyStrip category) then acc + 1 else acc) 0
  + (if cand.authors == refBook.authors then 2 else 0)

/-- One output row of the recommendation routine: the candidate row, its
`score` column, and its `match_score` column. -/
structure Recommendation where
  book : Book
  points : Nat
  match_score : ℚ
deriving DecidableEq, Repr

/-- Insert a scored row into a list sorted by descending score, before the
first row of smaller-or-equal score (keeps earlier rows first on ties). -/
def insertDesc (x : Book × Nat) : List (Book × Nat) → List (Book × Nat)
  | [] => [x]
  | y :: ys => if x.2 ≥ y.2 then x :: y :: ys else y :: insertDesc x ys

/-- Stable sort by descending score: together with `List.take num_rec` this
models `recommendations.nlargest(num_rec, 'score')` (ties keep the first
occurrences, pandas default `keep='first'`). -/
def sortDesc : List (Book × Nat) → List (Book × Nat)
  | [] => []
  | x :: xs => insertDesc x (sortDesc xs)

/-- Function `get_book_recommendations` (app.py lines 390-416).  The reference row is
the first row whose title equals `title` (`.iloc[0]`); an absent title is the
`NotFound` failure (the Python code fails there with an `IndexError` from
`.iloc[0]` on an empty selection).  Rows with the reference title are
excluded, the `num_rec` highest-scoring remaining rows are kept, and
`match_score = score / max_possible_score` with
`max_possible_score = len(book_categories) + 2`.

Regex boundary: each stripped piece of the reference's categories is fed to
`str.contains` as a regular expression.  This model computes the result
only when every piece is metacharacter-free - there `re.search` is exactly
substring containment and `re.compile` cannot raise, so the model is exact.
Outside that fragment the Python code follows full regex semantics, raising
`re.error` from inside the scoring loop when a piece is an invalid pattern
(e.g. an unbalanced parenthesis, producible by the 100-character truncation
of the subject list); the model signals `Err.regexError` for the whole
fragment and proves nothing about runs it does not compute. -/
def get_book_recommendations (books_df : List Book) (title : String) (num_rec : Nat) :
    Except Err (List Recommendation) :=
  match books_df.find? (fun b => b.title == title) with
  | none => .error .notFound
  | some book =>
    if (pySplit book.categories ',').all (fun piece => isLiteralPattern (pyStrip piece)) then
      let temp_df := buildScores books_df book
      let recommendations :=
        (sortDesc (temp_df.filter (fun r => r.1.title != title))).take num_rec
      let max_possible_score : Nat := (pySplit book.categories ',').length + 2
      .ok (recommendations.map (fun r =>
        { book := r.1, points := r.2, match_score := (r.2 : ℚ) / (max_possible_score : ℚ) }))
    else .error .regexError

/-- The recommendation interaction as a transformer of the shared state
`books_df`: the Python function reads the module-level `books_df`, copies it
(`temp_df = books_df.copy()`, app.py line 397), writes scores only into the
copy, and never rebinds the global, so the state component it returns is the
one it was given. -/
def runRecommendationRequest (books_df : List Book) (title : String) (num_rec : Nat) :
    Except Err (List Recommendation) × List Book :=
  (get_book_recommendations books_df title num_rec, books_df)

/-- Did the computation succeed?  (`Except.ok` versus `Except.error`.) -/
def isSuccess : Except Err (List Recommendation) → Bool
  | .ok _ => true
  | .error _ => false

/-- The list of returned recommendations of a request, the empty list on
failure.  Lets theorems speak about "the returned entries" without an
existential over the `Except` value. -/
def recList : Except Err (List Recommendation) → List Recommendation
  | .ok l => l
  | .error _ => []

/-- Modelled from the spec (section 4.2), for comparison with the code:
`tokenize` splits on comma, trims, discards empty tokens, and yields a set
(here: a deduplicated list). -/
def tokenize (s : String) : List String :=
  (((pySplit s ',').map pyStrip).filter (fun t => t ≠ "")).dedup

/-- Modelled from the spec (section 4.3), for comparison with the code: one
point per tag of `tokenize refBook.categories` contained in the candidate's
categories, plus two for an exact author match. -/
def specScore (refBook cand : Book) : Nat :=
  (tokenize refBook.categories).countP (fun t => strContains cand.categories t)
  + (if cand.authors == refBook.authors then 2 else 0)

/-! ## Concrete books used by examples, counterexamples and witnesses -/

/-- The reference book of the worked example in the spec (section 8). -/
def duneBook : Book :=
  ⟨"Dune", "Frank Herbert", "Science Fiction, Adventure", "", "", "", ""⟩

/-- The candidate book of the worked example in the spec (section 8). -/
def duneMessiahBook : Book :=
  ⟨"Dune Messiah", "Frank Herbert", "Science Fiction", "", "", "", ""⟩

/-- A reference whose categories cell repeats one tag (`"a,a"`). -/
def dupTagRef : Book := ⟨"R", "X", "a,a", "", "", "", ""⟩

/-- A candidate sharing the repeated tag but not the author. -/
def dupTagCand : Book := ⟨"C", "Y", "a", "", "", "", ""⟩

/-- A reference with a repeated tag, author `"A"`. -/
def dupTagRefSameAuthor : Book := ⟨"R", "A", "a,a", "", "", "", ""⟩

/-- A candidate with the repeated tag and the same author `"A"`. -/
def dupTagCandSameAuthor : Book := ⟨"C", "A", "a", "", "", "", ""⟩

/-- Reference book of the zero-score catalog. -/
def zeroRef : Book := ⟨"R", "A", "x", "", "", "", ""⟩

/-- A candidate matching the reference on tag and author (score 3). -/
def zeroCand1 : Book := ⟨"C1", "A", "x", "", "", "", ""⟩

/-- A candidate sharing no tag and no author with the reference (score 0). -/
def zeroCand0 : Book := ⟨"C0", "B", "z", "", "", "", ""⟩

/-- A reference whose single category piece `"("` is an invalid regular
expression: `re.compile` raises `re.error` inside the scoring loop of the
Python code. -/
def parenRef : Book := ⟨"R", "A", "(", "", "", "", ""⟩

/-- A harmless candidate next to `parenRef`. -/
def parenCand : Book := ⟨"C", "B", "y", "", "", "", ""⟩

/-- Existing record of the merge example in the spec (section 8). -/
def mergeBookA : Book := ⟨"A", "author one", "c1", "", "", "", ""⟩

/-- Incoming record with the duplicate title `"A"`. -/
def mergeBookA2 : Book := ⟨"A", "someone else", "c2", "", "", "", ""⟩

/-- Incoming record with the new title `"B"`. -/
def mergeBookB : Book := ⟨"B", "author two", "c3", "", "", "", ""⟩

/-! ## Helper lemmas: scoring -/

/-- Folding `+1`-if over a list counts the satisfying elements. -/
theorem foldl_count_eq {α : Type} (p : α → Bool) (l : List α) (acc : Nat) :
    l.foldl (fun a c => if p c then a + 1 else a) acc = acc + l.countP p := by
  induction l generalizing acc with
  | nil => simp
  | cons c cs ih =>
    rw [List.foldl_cons, ih, List.countP_cons]
    cases hc : p c <;> simp [hc] <;> omega

/-- The per-pair score as a count over the comma-split pieces plus the
author bonus. -/
theorem score_eq_countP (refBook cand : Book) :
    score refBook cand =
      (pySplit refBook.categories ',').countP
        (fun category => strContains cand.categories (pyStrip category))
      + (if cand.authors == refBook.authors then 2 else 0) := by
  unfold score
  rw [foldl_count_eq]
  simp

/-- The score is bounded by the number of comma-split pieces plus two. -/
theorem score_le (refBook cand : Book) :
    score refBook cand ≤ (pySplit refBook.categories ',').length + 2 := by
  rw [score_eq_countP]
  have h := List.countP_le_length
    (p := fun category => strContains cand.categories (pyStrip category))
    (l := pySplit refBook.categories ',')
  cases hc : (cand.authors == refBook.authors) <;> simp [hc] <;> omega

/-- Pointwise description of one `+=` pass over a scored dataframe. -/
theorem addPointsWhere_map (p : Book → Bool) (pts : Nat) (C : List Book) (f : Book → Nat) :
    addPointsWhere p pts (C.map fun b => (b, f b)) =
      C.map fun b => (b, f b + if p b then pts else 0) := by
  unfold addPointsWhere
  rw [List.map_map]
  apply List.map_congr_left
  intro b _
  by_cases hb : p b <;> simp [Function.comp, hb]

/-- The category passes of `buildScores` accumulate, per row, the count of
matching pieces. -/
theorem foldl_addPoints (cats : List String) (C : List Book) (f : Book → Nat) :
    cats.foldl
      (fun df category =>
        addPointsWhere (fun b => strContains b.categories (pyStrip category)) 1 df)
      (C.map fun b => (b, f b)) =
      C.map fun b =>
        (b, f b + cats.countP fun category => strContains b.categories (pyStrip category)) := by
  induction cats generalizing f with
  | nil => simp
  | cons cat cats ih =>
    rw [List.foldl_cons, addPointsWhere_map,
      ih (fun b => f b + if strContains b.categories (pyStrip cat) then 1 else 0)]
    apply List.map_congr_left
    intro b _
    cases h : strContains b.categories (pyStrip cat) <;>
      simp [List.countP_cons, h] <;> omega

/-- The column-wise scoring of the source equals the row-wise `score`. -/
theorem buildScores_eq (books_df : List Book) (book : Book) :
    buildScores books_df book = books_df.map fun b => (b, score book b) := by
  unfold buildScores
  rw [foldl_addPoints (f := fun _ => 0), addPointsWhere_map]
  apply List.map_congr_left
  intro b _
  rw [score_eq_countP]
  simp

/-- Every row of the scored copy carries the `score` of its book. -/
theorem points_of_mem_buildScores {books_df : List Book} {book : Book} {r : Book × Nat}
    (h : r ∈ buildScores books_df book) : r.2 = score book r.1 := by
  rw [buildScores_eq] at h
  obtain ⟨b, _, rfl⟩ := List.mem_map.mp h
  rfl

/-- Filtering the scored copy by title is filtering the catalog by title. -/
theorem filter_buildScores (C : List Book) (book : Book) (t : String) :
    (buildScores C book).filter (fun r => r.1.title != t) =
      (C.filter fun b => b.title != t).map (fun b => (b, score book b)) := by
  rw [buildScores_eq, List.filter_map]
  rfl

/-! ## Helper lemmas: sorting -/

/-- Inserting grows the length by one. -/
theorem length_insertDesc (x : Book × Nat) (l : List (Book × Nat)) :
    (insertDesc x l).length = l.length + 1 := by
  induction l with
  | nil => rfl
  | cons y ys ih => by_cases h : x.2 ≥ y.2 <;> simp [insertDesc, h, ih]

/-- Sorting preserves the length. -/
theorem length_sortDesc (l : List (Book × Nat)) : (sortDesc l).length = l.length := by
  induction l with
  | nil => rfl
  | cons x xs ih => simp [sortDesc, length_insertDesc, ih]

/-- Members of an insertion come from the inserted element or the list. -/
theorem mem_insertDesc {y x : Book × Nat} {l : List (Book × Nat)}
    (h : y ∈ insertDesc x l) : y = x ∨ y ∈ l := by
  induction l with
  | nil =>
    simp only [insertDesc, List.mem_singleton] at h
    exact Or.inl h
  | cons z zs ih =>
    simp only [insertDesc] at h
    split at h
    · simp only [List.mem_cons] at h ⊢
      tauto
    · simp only [List.mem_cons] at h
      rcases h with h | h
      · subst h; simp
      · rcases ih h with h | h
        · exact Or.inl h
        · simp [h]

/-- Members of the sorted list are members of the list. -/
theorem mem_sortDesc {y : Book × Nat} {l : List (Book × Nat)}
    (h : y ∈ sortDesc l) : y ∈ l := by
  induction l with
  | nil => simpa [sortDesc] using h
  | cons x xs ih =>
    simp only [sortDesc] at h
    rcases mem_insertDesc h with h | h
    · simp [h]
    · exact List.mem_cons_of_mem x (ih h)

/-! ## Helper lemmas: the ranking routine -/

/-- Shape of a successful recommendation request: when the title lookup
finds `book` and every stripped category piece is metacharacter-free, the
result is the sorted, truncated, annotated candidate list. -/
theorem getRecs_eq_of_found (books_df : List Book) (title : String) (num_rec : Nat)
    (book : Book) (h : books_df.find? (fun b => b.title == title) = some book)
    (hlit : (pySplit book.categories ',').all
      (fun piece => isLiteralPattern (pyStrip piece)) = true) :
    get_book_recommendations books_df title num_rec =
      Except.ok
        (((sortDesc ((buildScores books_df book).filter
              (fun r => r.1.title != title))).take num_rec).map
          (fun r => ⟨r.1, r.2,
            (r.2 : ℚ) / (((pySplit book.categories ',').length + 2 : Nat) : ℚ)⟩)) := by
  simp only [get_book_recommendations, h]
  rw [if_pos hlit]

/-- A request whose reference has a category piece containing a regex
metacharacter is outside the modelled fragment and reported as
`regexError`. -/
theorem getRecs_eq_of_nonliteral (books_df : List Book) (title : String) (num_rec : Nat)
    (book : Book) (h : books_df.find? (fun b => b.title == title) = some book)
    (hlit : ¬ (pySplit book.categories ',').all
      (fun piece => isLiteralPattern (pyStrip piece)) = true) :
    get_book_recommendations books_df title num_rec = Except.error Err.regexError := by
  simp only [get_book_recommendations, h]
  rw [if_neg hlit]

/-- A title occurring in the catalog is found by the lookup. -/
theorem find_title_of_mem {C : List Book} {t : String} (ht : t ∈ C.map Book.title) :
    ∃ book, C.find? (fun b => b.title == t) = some book := by
  cases hf : C.find? (fun b => b.title == t) with
  | some b => exact ⟨b, rfl⟩
  | none =>
    rw [List.find?_eq_none] at hf
    obtain ⟨b, hb, rfl⟩ := List.mem_map.mp ht
    exact absurd (beq_self_eq_true b.title) (hf b hb)

/-- Removing the rows carrying a present title strictly shrinks the
catalog. -/
theorem filter_length_lt {C : List Book} {t : String} (ht : t ∈ C.map Book.title) :
    (C.filter fun b => b.title != t).length < C.length := by
  rw [List.length_filter_lt_length_iff_exists]
  obtain ⟨b, hb, rfl⟩ := List.mem_map.mp ht
  exact ⟨b, hb, by simp⟩

/-! ## Helper lemmas: merging -/

/-- Deduplication only depends on the set of seen titles. -/
theorem dropDupTitlesAux_congr (l : List Book) :
    ∀ seen seen2, (∀ s, s ∈ seen ↔ s ∈ seen2) →
      dropDupTitlesAux seen l = dropDupTitlesAux seen2 l := by
  induction l with
  | nil => intro _ _ _; rfl
  | cons b bs ih =>
    intro seen seen2 h
    simp only [dropDupTitlesAux]
    by_cases hb : b.title ∈ seen
    · rw [if_pos hb, if_pos ((h b.title).mp hb), ih seen seen2 h]
    · rw [if_neg hb, if_neg (fun hx => hb ((h b.title).mpr hx)),
        ih (b.title :: seen) (b.title :: seen2) (by intro s; simp [h s])]

/-- A title survives deduplication exactly when it occurs in the input and
was not seen before. -/
theorem mem_titles_dropDupTitlesAux (l : List Book) :
    ∀ seen (s : String), s ∈ (dropDupTitlesAux seen l).map Book.title ↔
      s ∈ l.map Book.title ∧ s ∉ seen := by
  induction l with
  | nil => intro seen s; simp [dropDupTitlesAux]
  | cons b bs ih =>
    intro seen s
    simp only [dropDupTitlesAux]
    by_cases hb : b.title ∈ seen
    · rw [if_pos hb, ih]
      simp only [List.map_cons, List.mem_cons]
      constructor
      · rintro ⟨hs, hns⟩
        exact ⟨Or.inr hs, hns⟩
      · rintro ⟨hs | hs, hns⟩
        · exact absurd (hs ▸ hb) hns
        · exact ⟨hs, hns⟩
    · rw [if_neg hb]
      simp only [List.map_cons, List.mem_cons, ih, List.mem_cons]
      constructor
      · rintro (rfl | ⟨hs, hns⟩)
        · exact ⟨Or.inl rfl, hb⟩
        · refine ⟨Or.inr hs, fun hx => hns (Or.inr hx)⟩
      · rintro ⟨hs, hns⟩
        by_cases hsb : s = b.title
        · exact Or.inl hsb
        · rcases hs with hs | hs
          · exact absurd hs hsb
          · exact Or.inr ⟨hs, fun hx => (by tauto : False)⟩

/-- Deduplication yields a subsequence of its input. -/
theorem dropDupTitlesAux_sublist (l : List Book) :
    ∀ seen, List.Sublist (dropDupTitlesAux seen l) l := by
  induction l with
  | nil => intro _; simp [dropDupTitlesAux]
  | cons b bs ih =>
    intro seen
    simp only [dropDupTitlesAux]
    by_cases hb : b.title ∈ seen
    · rw [if_pos hb]
      exact (ih seen).cons b
    · rw [if_neg hb]
      exact (ih _).cons₂ b

/-- Deduplicated titles are pairwise distinct. -/
theorem titles_nodup_dropDupTitlesAux (l : List Book) :
    ∀ seen, ((dropDupTitlesAux seen l).map Book.title).Nodup := by
  induction l with
  | nil => intro _; simp [dropDupTitlesAux]
  | cons b bs ih =>
    intro seen
    simp only [dropDupTitlesAux]
    by_cases hb : b.title ∈ seen
    · rw [if_pos hb]
      exact ih seen
    · rw [if_neg hb]
      simp only [List.map_cons, List.nodup_cons]
      refine ⟨fun hx => ?_, ih _⟩
      rw [mem_titles_dropDupTitlesAux] at hx
      exact hx.2 (List.mem_cons_self _ _)

/-- A block of pairwise-distinct unseen records passes through
deduplication unchanged, in front of the deduplicated remainder. -/
theorem dropDupTitlesAux_append (C : List Book) :
    ∀ (I : List Book) seen, (C.map Book.title).Nodup → (∀ b ∈ C, b.title ∉ seen) →
      dropDupTitlesAux seen (C ++ I) =
        C ++ dropDupTitlesAux (C.map Book.title ++ seen) I := by
  induction C with
  | nil => intro I seen _ _; simp
  | cons b C ih =>
    intro I seen hnd hdisj
    simp only [List.cons_append, dropDupTitlesAux]
    rw [if_neg (hdisj b (List.mem_cons_self b C))]
    simp only [List.map_cons, List.nodup_cons] at hnd
    have hside : ∀ c ∈ C, c.title ∉ b.title :: seen := by
      intro c hc
      simp only [List.mem_cons]
      push_neg
      exact ⟨fun he => hnd.1 (he ▸ List.mem_map_of_mem Book.title hc),
        fun hx => hdisj c (List.mem_cons_of_mem b hc) hx⟩
    simp only [List.append_eq]
    rw [ih I (b.title :: seen) hnd.2 hside,
      dropDupTitlesAux_congr I (C.map Book.title ++ b.title :: seen)
        ((b :: C).map Book.title ++ seen)
        (by intro s; simp only [List.mem_append, List.mem_cons, List.map_cons]; tauto)]

/-- Deduplication of records whose titles were all already seen is empty. -/
theorem dropDupTitlesAux_all_seen (l : List Book) :
    ∀ seen, (∀ b ∈ l, b.title ∈ seen) → dropDupTitlesAux seen l = [] := by
  induction l with
  | nil => intro _ _; rfl
  | cons b bs ih =>
    intro seen h
    simp only [dropDupTitlesAux]
    rw [if_pos (h b (List.mem_cons_self b bs))]
    exact ih seen (fun c hc => h c (List.mem_cons_of_mem b hc))

/-- When the existing catalog has pairwise-distinct titles, merging keeps it
as an unchanged prefix and appends the deduplicated fresh incoming rows. -/
theorem mergeBooks_eq (C I : List Book) (h : (C.map Book.title).Nodup) :
    mergeBooks C I = C ++ dropDupTitlesAux (C.map Book.title) I := by
  unfold mergeBooks dropDupTitles
  rw [dropDupTitlesAux_append C I [] h (by simp),
    dropDupTitlesAux_congr I (C.map Book.title ++ []) (C.map Book.title)
      (by intro s; simp)]

/-- A title of the merge input is a title of the merge output. -/
theorem titles_mergeBooks {C I : List Book} {b : Book} (hb : b ∈ C ++ I) :
    b.title ∈ (mergeBooks C I).map Book.title := by
  show b.title ∈ (dropDupTitlesAux [] (C ++ I)).map Book.title
  rw [mem_titles_dropDupTitlesAux]
  exact ⟨List.mem_map_of_mem Book.title hb, by simp⟩

/-- Merging the same incoming rows a second time is a no-op. -/
theorem mergeBooks_idem (C I : List Book) :
    mergeBooks (mergeBooks C I) I = mergeBooks C I := by
  have hnd : ((mergeBooks C I).map Book.title).Nodup :=
    titles_nodup_dropDupTitlesAux (C ++ I) []
  rw [mergeBooks_eq (mergeBooks C I) I hnd,
    dropDupTitlesAux_all_seen I ((mergeBooks C I).map Book.title)
      (fun b hb => titles_mergeBooks (List.mem_append_right C hb)),
    List.append_nil]

/-! ## Claims -/

/-- C1 (counterexample): the claimed score formula counts *distinct,
nonempty, trimmed* tags (`tokenize`), but the code iterates over the raw
comma-split list, so a reference with the repeated tag list `"a,a"` gives a
matching candidate 2 category points where the claimed formula gives 1. -/
theorem score_formula_counterexample :
    score dupTagRef dupTagCand = 2 ∧ specScore dupTagRef dupTagCand = 1 ∧
    score dupTagRef dupTagCand ≠ specScore dupTagRef dupTagCand := by
  refine ⟨by decide, by decide, by decide⟩

/-- C1 (amended): for references whose stripped comma-split category
pieces are free of regex metacharacters - on such patterns pandas' regex
matching is exactly substring containment, so the model is the code - the
similarity score assigned by the scoring passes to every candidate row
equals, per candidate, the number of *pieces* of the comma-split (not
tokenized) reference categories whose stripped value is contained in the
candidate's categories - each piece counted separately, repeated and empty
pieces included - plus 2 for an exact, case-sensitive author match; on the
spec's Dune example the score is 3 as claimed. -/
theorem score_formula_amended (books_df : List Book) (refBook cand : Book)
    (hlit : (pySplit refBook.categories ',').all
      (fun piece => isLiteralPattern (pyStrip piece)) = true) :
    buildScores books_df refBook = books_df.map (fun b => (b, score refBook b)) ∧
    score refBook cand =
      (pySplit refBook.categories ',').countP
        (fun category => strContains cand.categories (pyStrip category)) +
      (if cand.authors == refBook.authors then 2 else 0) ∧
    score duneBook duneMessiahBook = 3 :=
  ⟨buildScores_eq books_df refBook, score_eq_countP refBook cand, by decide⟩

/-- C1 (witness): the Dune example catalog, whose category pieces are all
literal patterns. -/
theorem score_formula_amended_witness :
    buildScores [duneBook, duneMessiahBook] duneBook =
      [duneBook, duneMessiahBook].map (fun b => (b, score duneBook b)) ∧
    score duneBook duneMessiahBook =
      (pySplit duneBook.categories ',').countP
        (fun category => strContains duneMessiahBook.categories (pyStrip category)) +
      (if duneMessiahBook.authors == duneBook.authors then 2 else 0) ∧
    score duneBook duneMessiahBook = 3 :=
  score_formula_amended [duneBook, duneMessiahBook] duneBook duneMessiahBook (by decide)

/-- C2: merging is first-seen-wins and order-preserving - the existing
catalog (with pairwise-distinct titles) is an unchanged prefix of the
result, the appended rows form a subsequence of the incoming rows whose
titles avoid the existing titles, every incoming title occurs in the
result, and merging the same incoming rows again is a no-op. -/
theorem merge_first_seen_wins (C I : List Book) (h : (C.map Book.title).Nodup) :
    (mergeBooks C I).take C.length = C ∧
    List.Sublist ((mergeBooks C I).drop C.length) I ∧
    List.Disjoint (((mergeBooks C I).drop C.length).map Book.title) (C.map Book.title) ∧
    I.map Book.title ⊆ (mergeBooks C I).map Book.title ∧
    mergeBooks (mergeBooks C I) I = mergeBooks C I := by
  have he := mergeBooks_eq C I h
  refine ⟨?_, ?_, ?_, ?_, mergeBooks_idem C I⟩
  · rw [he, List.take_left]
  · rw [he, List.drop_left]
    exact dropDupTitlesAux_sublist I _
  · rw [he, List.drop_left]
    intro s hs hs2
    rw [mem_titles_dropDupTitlesAux] at hs
    exact hs.2 hs2
  · intro s hs
    obtain ⟨b, hb, rfl⟩ := List.mem_map.mp hs
    exact titles_mergeBooks (List.mem_append_right C hb)

/-- C2 (witness): the spec's own example, `merge([A], [A2, B])` with `A2`
bearing the duplicate title `"A"`. -/
theorem merge_first_seen_wins_witness :
    (mergeBooks [mergeBookA] [mergeBookA2, mergeBookB]).take [mergeBookA].length =
      [mergeBookA] ∧
    List.Sublist ((mergeBooks [mergeBookA] [mergeBookA2, mergeBookB]).drop
      [mergeBookA].length) [mergeBookA2, mergeBookB] ∧
    List.Disjoint (((mergeBooks [mergeBookA] [mergeBookA2, mergeBookB]).drop
      [mergeBookA].length).map Book.title) ([mergeBookA].map Book.title) ∧
    [mergeBookA2, mergeBookB].map Book.title ⊆
      (mergeBooks [mergeBookA] [mergeBookA2, mergeBookB]).map Book.title ∧
    mergeBooks (mergeBooks [mergeBookA] [mergeBookA2, mergeBookB])
      [mergeBookA2, mergeBookB] = mergeBooks [mergeBookA] [mergeBookA2, mergeBookB] :=
  merge_first_seen_wins [mergeBookA] [mergeBookA2, mergeBookB] (by decide)

/-- C3: for a reference title present in the catalog, no returned
recommendation carries the reference title (the code filters out every row
whose title equals it before ranking). -/
theorem never_recommends_reference (C : List Book) (t : String) (n : Nat)
    (ht : t ∈ C.map Book.title) :
    (recList (get_book_recommendations C t n)).all (fun r => r.book.title != t) = true := by
  obtain ⟨book, hf⟩ := find_title_of_mem ht
  by_cases hlit : (pySplit book.categories ',').all
      (fun piece => isLiteralPattern (pyStrip piece)) = true
  · rw [getRecs_eq_of_found C t n book hf hlit, List.all_eq_true]
    intro r hr
    simp only [recList] at hr
    obtain ⟨p, hp, rfl⟩ := List.mem_map.mp hr
    exact (List.mem_filter.mp (mem_sortDesc (List.mem_of_mem_take hp))).2
  · rw [getRecs_eq_of_nonliteral C t n book hf hlit]
    rfl

/-- C3 (witness): a concrete two-book catalog. -/
theorem never_recommends_reference_witness :
    (recList (get_book_recommendations [dupTagRef, dupTagCand] "R" 5)).all
      (fun r => r.book.title != "R") = true :=
  never_recommends_reference [dupTagRef, dupTagCand] "R" 5 (by decide)

/-- C4 (counterexample): with the repeated tag list `"a,a"` and a same-author
matching candidate the code scores 4, above the claimed bound
`|tokenize(a.categories)| + 2 = 3`. -/
theorem score_bound_counterexample :
    score dupTagRefSameAuthor dupTagCandSameAuthor = 4 ∧
    (tokenize dupTagRefSameAuthor.categories).length + 2 = 3 ∧
    ¬ (score dupTagRefSameAuthor dupTagCandSameAuthor ≤
        (tokenize dupTagRefSameAuthor.categories).length + 2) := by
  refine ⟨by decide, by decide, by decide⟩

/-- C4 (amended): the score lies in `[0, L + 2]` where `L` is the length of
the raw comma-split list of the reference's categories (the lower bound is
inherent in the `Nat` codomain; `L` can exceed the number of tokenized tags
when pieces repeat or are empty after trimming). -/
theorem score_bound_amended (a b : Book) :
    score a b ≤ (pySplit a.categories ',').length + 2 :=
  score_le a b

/-- C7: a recommendation request leaves the shared catalog unchanged - the
state it returns is the state it was given, and the scoring passes write
only score cells, never the `Book` part of any row (`temp_df` is a copy). -/
theorem scoring_preserves_catalog (C : List Book) (t : String) (n : Nat) (book : Book) :
    (runRecommendationRequest C t n).2 = C ∧
    (buildScores C book).map Prod.fst = C := by
  refine ⟨rfl, ?_⟩
  rw [buildScores_eq, List.map_map]
  have hid : (Prod.fst ∘ fun b => (b, score book b)) = id := rfl
  rw [hid, List.map_id]

/-- C8: when no catalog row carries the requested title, the request fails,
and with `NotFound` in the spec's taxonomy - the title lookup is the first
step and the only failing one. -/
theorem missing_title_not_found (C : List Book) (t : String) (n : Nat)
    (h : ∀ b ∈ C, b.title ≠ t) :
    get_book_recommendations C t n = Except.error Err.notFound := by
  have hf : C.find? (fun b => b.title == t) = none := by
    rw [List.find?_eq_none]
    intro b hb
    simpa using h b hb
  unfold get_book_recommendations
  rw [hf]

/-- C8 (witness): a title absent from a concrete catalog. -/
theorem missing_title_not_found_witness :
    get_book_recommendations [dupTagRef, dupTagCand] "Missing" 5 =
      Except.error Err.notFound :=
  missing_title_not_found [dupTagRef, dupTagCand] "Missing" 5 (by decide)

/-- C9: the normalised categories cell is the `", "`-joined subject list cut
to its first 100 characters, hence never longer than 100 characters. -/
theorem categories_truncated (item : RawItem) :
    (createBook item).categories.length ≤ 100 ∧
    (createBook item).categories.data =
      (String.intercalate ", " (item.subject.getD ["Uncategorized"])).data.take 100 := by
  constructor
  · have h : (createBook item).categories.length =
        ((String.intercalate ", " (item.subject.getD ["Uncategorized"])).data.take 100).length :=
      rfl
    rw [h, List.length_take]
    exact min_le_left _ _
  · rfl

/-- C5 (counterexample): on the two-book catalog with reference categories
`"a,a"` the routine returns `match_score = 1/2` (denominator: raw piece
count 2, plus 2), while the claimed formula - score divided by
`max(1, |tokenize| + 2)` - yields `2/3` (or `1/3` with the claimed score
1), so the claimed denominator is wrong. -/
theorem match_ratio_counterexample :
    recList (get_book_recommendations [dupTagRef, dupTagCand] "R" 5) =
      [⟨dupTagCand, 2, (1 : ℚ) / 2⟩] ∧
    (1 : ℚ) / 2 ≠
      (2 : ℚ) / ((max 1 ((tokenize dupTagRef.categories).length + 2) : Nat) : ℚ) ∧
    (1 : ℚ) / 2 ≠
      ((specScore dupTagRef dupTagCand : Nat) : ℚ) /
        ((max 1 ((tokenize dupTagRef.categories).length + 2) : Nat) : ℚ) := by
  refine ⟨?_, ?_, ?_⟩
  · rw [getRecs_eq_of_found [dupTagRef, dupTagCand] "R" 5 dupTagRef (by decide) (by decide)]
    have hs : (sortDesc ((buildScores [dupTagRef, dupTagCand] dupTagRef).filter
        (fun r => r.1.title != "R"))).take 5 = [(dupTagCand, 2)] := by decide
    rw [hs]
    have hl : (pySplit dupTagRef.categories ',').length = 2 := by decide
    rw [hl]
    simp only [recList, List.map_cons, List.map_nil, List.cons.injEq, and_true,
      Recommendation.mk.injEq, true_and]
    norm_num
  · have h3 : max 1 ((tokenize dupTagRef.categories).length + 2) = 3 := by decide
    rw [h3]
    norm_num
  · have h3 : max 1 ((tokenize dupTagRef.categories).length + 2) = 3 := by decide
    have h2 : specScore dupTagRef dupTagCand = 1 := by decide
    rw [h3, h2]
    norm_num

/-- C5 (amended): each returned candidate's `match_score` is its score
divided by the raw comma-split piece count of the reference's categories
plus 2 (not the tokenized tag count; no `max(1, ·)` guard exists and none
is needed, the denominator being at least 3), and it lies in `[0, 1]`. -/
theorem match_ratio_amended (C : List Book) (t : String) (n : Nat) (book : Book)
    (hf : C.find? (fun b => b.title == t) = some book) :
    (recList (get_book_recommendations C t n)).map Recommendation.match_score =
      (recList (get_book_recommendations C t n)).map
        (fun r => (r.points : ℚ) / (((pySplit book.categories ',').length + 2 : Nat) : ℚ)) ∧
    (recList (get_book_recommendations C t n)).all
      (fun r => decide (0 ≤ r.match_score ∧ r.match_score ≤ 1)) = true := by
  by_cases hlit : (pySplit book.categories ',').all
      (fun piece => isLiteralPattern (pyStrip piece)) = true
  case neg =>
    rw [getRecs_eq_of_nonliteral C t n book hf hlit]
    exact ⟨rfl, rfl⟩
  rw [getRecs_eq_of_found C t n book hf hlit]
  constructor
  · simp only [recList, List.map_map]
    rfl
  · rw [List.all_eq_true]
    intro r hr
    simp only [recList] at hr
    obtain ⟨p, hp, rfl⟩ := List.mem_map.mp hr
    have hmem := mem_sortDesc (List.mem_of_mem_take hp)
    have hsc : p.2 = score book p.1 :=
      points_of_mem_buildScores (List.mem_filter.mp hmem).1
    rw [decide_eq_true_eq]
    have hden : (0 : ℚ) < (((pySplit book.categories ',').length + 2 : Nat) : ℚ) := by
      exact_mod_cast (by omega : 0 < (pySplit book.categories ',').length + 2)
    constructor
    · exact div_nonneg (Nat.cast_nonneg _) (le_of_lt hden)
    · rw [div_le_one hden]
      have hb := score_le book p.1
      rw [← hsc] at hb
      exact_mod_cast hb

/-- C5 (witness): the two-book catalog, reference `"R"`. -/
theorem match_ratio_amended_witness :
    (recList (get_book_recommendations [dupTagRef, dupTagCand] "R" 5)).map
      Recommendation.match_score =
      (recList (get_book_recommendations [dupTagRef, dupTagCand] "R" 5)).map
        (fun r => (r.points : ℚ) /
          (((pySplit dupTagRef.categories ',').length + 2 : Nat) : ℚ)) ∧
    (recList (get_book_recommendations [dupTagRef, dupTagCand] "R" 5)).all
      (fun r => decide (0 ≤ r.match_score ∧ r.match_score ≤ 1)) = true :=
  match_ratio_amended [dupTagRef, dupTagCand] "R" 5 dupTagRef (by decide)

/-- C6 (counterexample): the claim promises an empty sequence, not an
error, whenever the catalog minus the reference is empty - but on a
reference whose category piece `"("` is an invalid regular expression the
Python code raises `re.error` out of the scoring loop, an error, even
though the title is present and the candidate set is empty. -/
theorem rank_error_counterexample :
    "R" ∈ [parenRef].map Book.title ∧
    get_book_recommendations [parenRef] "R" 1 = Except.error Err.regexError ∧
    isSuccess (get_book_recommendations [parenRef] "R" 1) = false := by
  refine ⟨by decide, by rfl, by rfl⟩

/-- C6 (amended): when the reference record's stripped category pieces are
free of regex metacharacters (otherwise the pandas regex path can raise
`re.error`), the request succeeds and returns `min n K` entries, `K` being
the number of other rows - hence at most `n` and at most `|C| - 1`; when
the catalog minus the reference is empty, `K = 0`, so the result is the
empty list, not an error. -/
theorem rank_length_bounds (C : List Book) (t : String) (n : Nat) (book : Book)
    (hf : C.find? (fun b => b.title == t) = some book)
    (hlit : (pySplit book.categories ',').all
      (fun piece => isLiteralPattern (pyStrip piece)) = true)
    (hn : 1 ≤ n) :
    isSuccess (get_book_recommendations C t n) = true ∧
    (recList (get_book_recommendations C t n)).length =
      min n ((C.filter fun b => b.title != t)).length ∧
    (recList (get_book_recommendations C t n)).length ≤ n ∧
    (recList (get_book_recommendations C t n)).length ≤ C.length - 1 := by
  have hbt : book.title = t := by
    have hq := List.find?_some hf
    simpa using hq
  have ht : t ∈ C.map Book.title :=
    List.mem_map.mpr ⟨book, List.mem_of_find?_eq_some hf, hbt⟩
  rw [getRecs_eq_of_found C t n book hf hlit]
  have hk : ((sortDesc ((buildScores C book).filter
        (fun r => r.1.title != t))).take n).length =
      min n ((C.filter fun b => b.title != t)).length := by
    rw [List.length_take, length_sortDesc, filter_buildScores, List.length_map]
  have hlt := filter_length_lt ht
  refine ⟨rfl, ?_, ?_, ?_⟩
  · simp only [recList, List.length_map]
    exact hk
  · simp only [recList, List.length_map, hk]
    exact min_le_left _ _
  · simp only [recList, List.length_map, hk]
    have h2 := min_le_right n ((C.filter fun b => b.title != t)).length
    omega

/-- C6 (witness): a one-book catalog with literal category pieces, where
the candidate set is empty and the routine returns the empty list. -/
theorem rank_length_bounds_witness :
    isSuccess (get_book_recommendations [dupTagRef] "R" 3) = true ∧
    (recList (get_book_recommendations [dupTagRef] "R" 3)).length =
      min 3 (([dupTagRef].filter fun b => b.title != "R")).length ∧
    (recList (get_book_recommendations [dupTagRef] "R" 3)).length ≤ 3 ∧
    (recList (get_book_recommendations [dupTagRef] "R" 3)).length ≤ [dupTagRef].length - 1 :=
  rank_length_bounds [dupTagRef] "R" 3 dupTagRef (by decide) (by decide) (by decide)

/-- C10 (counterexample): the claim promises exactly `limit` entries
whenever at least `limit` candidates besides the reference exist, but a
reference whose category piece `"("` is an invalid regular expression makes
the Python code raise `re.error` instead of returning any entry. -/
theorem exact_limit_counterexample :
    "R" ∈ [parenRef, parenCand].map Book.title ∧
    1 ≤ (([parenRef, parenCand].filter fun b => b.title != "R")).length ∧
    get_book_recommendations [parenRef, parenCand] "R" 1 = Except.error Err.regexError ∧
    (recList (get_book_recommendations [parenRef, parenCand] "R" 1)).length ≠ 1 := by
  refine ⟨by decide, by decide, by rfl, by decide⟩

/-- C10 (amended): results are not filtered to positive scores: whenever
the reference record's stripped category pieces are free of regex
metacharacters (otherwise the pandas regex path can raise `re.error`) and
at least `n` rows besides the reference exist, exactly `n` entries come
back; on a concrete catalog with one matching candidate (score 3) and one
candidate sharing no tag and no author (score 0), asking for 2 returns
both, including the zero-score one. -/
theorem no_positive_score_filter :
    (∀ (C : List Book) (t : String) (n : Nat) (book : Book),
      C.find? (fun b => b.title == t) = some book →
      (pySplit book.categories ',').all
        (fun piece => isLiteralPattern (pyStrip piece)) = true →
      n ≤ ((C.filter fun b => b.title != t)).length →
      (recList (get_book_recommendations C t n)).length = n) ∧
    (recList (get_book_recommendations [zeroRef, zeroCand1, zeroCand0] "R" 2)).map
      Recommendation.points = [3, 0] := by
  constructor
  · intro C t n book hf hlit hn
    rw [getRecs_eq_of_found C t n book hf hlit]
    simp only [recList, List.length_map, List.length_take, length_sortDesc,
      filter_buildScores]
    exact Nat.min_eq_left hn
  · rw [getRecs_eq_of_found [zeroRef, zeroCand1, zeroCand0] "R" 2 zeroRef
      (by decide) (by decide)]
    have hs : (sortDesc ((buildScores [zeroRef, zeroCand1, zeroCand0] zeroRef).filter
        (fun r => r.1.title != "R"))).take 2 = [(zeroCand1, 3), (zeroCand0, 0)] := by decide
    rw [hs]
    rfl

/-- C10 (witness): the zero-score catalog returns exactly 2 entries. -/
theorem no_positive_score_filter_witness :
    (recList (get_book_recommendations [zeroRef, zeroCand1, zeroCand0] "R" 2)).length = 2 :=
  no_positive_score_filter.1 [zeroRef, zeroCand1, zeroCand0] "R" 2 zeroRef
    (by decide) (by decide) (by decide)
